import Mathlib

/-!
Verification of the parallel web-scraper pipeline
(`src/scraper/workers.py`, `src/scraper/nested_scraper.py`,
`src/scraper/utils/data_models.py`, with the legacy monolithic variant in
`src/main.py`).

The development shallowly embeds the pure decision logic of the scraper:
the deduplicating URL index, the statistics aggregator, the three
page-layout strategies of the directory stage, the e-mail pattern matcher
of the profile stage, the per-item bodies of the three worker loops, and
the orchestrator's shutdown sequence.  External effects (HTTP fetches,
the Selenium driver, file I/O) are represented by explicit input values:
a fetch is an `Option` of the parsed page content, file writes are
returned as lists.
-/

/-! ## Generic helpers: Python `dict` as an insertion-ordered association list -/

/-- Lookup in an insertion-ordered association list (Python `d[k]` / `k in d`). -/
def dictGet? {α : Type} : List (String × α) → String → Option α
  | [], _ => none
  | (k', v) :: rest, k => if k' = k then some v else dictGet? rest k

/-- Lookup with a default value (Python `d.get(k, dflt)`). -/
def dictGetD {α : Type} (m : List (String × α)) (k : String) (dflt : α) : α :=
  (dictGet? m k).getD dflt

/-- Assignment `d[k] = v` in a Python dict: update in place if the key
exists, otherwise append at the end. -/
def dictSet {α : Type} : List (String × α) → String → α → List (String × α)
  | [], k, v => [(k, v)]
  | (k', v') :: rest, k, v =>
    if k' = k then (k, v) :: rest else (k', v') :: dictSet rest k v

/-- Python truthiness of an optional string (`None` and `""` are falsy). -/
def truthy : Option String → Bool
  | none => false
  | some s => !(s = "")

/-- Python `str.strip()`: drop whitespace from both ends. -/
def pyStrip (s : String) : String :=
  String.mk (((s.data.dropWhile Char.isWhitespace).reverse.dropWhile Char.isWhitespace).reverse)

/-! ## Deduplicator (`processed_faculty_urls` guarded by `faculty_url_lock`)

`src/scraper/workers.py:83-95` (ProgramWorker.get_faculty_page) and
`src/scraper/workers.py:203-210` (DirectoryWorker.scrape_directory_page)
both run the same claim protocol on the shared dict
`processed_faculty_urls : url → set of program names`. -/

/-- The shared URL index: each URL maps to the set (modelled as a
duplicate-free list) of program names already associated with it. -/
abbrev DedupState : Type := List (String × List String)

/-- One atomic claim of a `(url, programName)` pair, exactly the locked block:
first sight of a URL installs a singleton set and succeeds; a known URL
succeeds only if the program name is absent from its set (adding it);
otherwise the claim fails and the state is unchanged. -/
def tryClaim (m : DedupState) (url programName : String) : Bool × DedupState :=
  match dictGet? m url with
  | some progs =>
    if programName ∈ progs then (false, m)
    else (true, dictSet m url (progs ++ [programName]))
  | none => (true, dictSet m url [programName])

/-- Whether a `(url, programName)` pair has already been claimed. -/
def claimed (m : DedupState) (url programName : String) : Bool :=
  match dictGet? m url with
  | some progs => decide (programName ∈ progs)
  | none => false

/-- Run a sequence of `tryClaim` operations (any serialisation of the
concurrent callers from the program and directory stages). -/
def runClaims (m : DedupState) : List (String × String) → DedupState
  | [] => m
  | (u, p) :: rest => runClaims (tryClaim m u p).2 rest

/-! ## Statistics aggregator
(`src/scraper/utils/data_models.py:13-49`, `src/scraper/nested_scraper.py:39-63`;
the twin copy in `src/main.py:93-179` is identical). -/

/-- `ScraperStatistics` dataclass: counters plus per-program maps.
`total_pages_visited` starts at `1` to count the base URL
(`data_models.py:20`). -/
structure ScraperStatistics where
  base_url : String
  num_threads : Nat
  scrape_time_minutes : Nat
  colleges_count : Nat
  programs_visited : Nat
  total_pages_visited : Nat
  total_emails_recorded : Nat
  programs_with_faculty_url : List (String × Bool)
  programs_without_faculty_url : List (String × Bool)
  program_personnel_count : List (String × Nat)
  program_complete_records : List (String × Nat)
  program_incomplete_records : List (String × Nat)
deriving DecidableEq

/-- Constructor + `__post_init__`: counters zero except
`total_pages_visited = 1`, maps empty. -/
def ScraperStatistics.init (url : String) (n t : Nat) : ScraperStatistics :=
  { base_url := url
    num_threads := n
    scrape_time_minutes := t
    colleges_count := 0
    programs_visited := 0
    total_pages_visited := 1
    total_emails_recorded := 0
    programs_with_faculty_url := []
    programs_without_faculty_url := []
    program_personnel_count := []
    program_complete_records := []
    program_incomplete_records := [] }

/-- `NestedWebScraper.update_stats` (`nested_scraper.py:39-63`): the
`if`/`elif` chain, with Python truthiness of `program_name` on the
program-keyed branches.  The lock around the body makes each call atomic,
so a run's statistics are a fold of these updates. -/
def update_stats (s : ScraperStatistics) (stat_type : String)
    (program_name : Option String) : ScraperStatistics :=
  if stat_type = "page_visit" then
    { s with total_pages_visited := s.total_pages_visited + 1 }
  else if stat_type = "college" then
    { s with colleges_count := s.colleges_count + 1 }
  else if stat_type = "program" then
    { s with programs_visited := s.programs_visited + 1
             total_pages_visited := s.total_pages_visited + 1 }
  else if stat_type = "faculty_url_success" ∧ truthy program_name = true then
    { s with programs_with_faculty_url :=
               dictSet s.programs_with_faculty_url (program_name.getD "") true
             total_pages_visited := s.total_pages_visited + 1 }
  else if stat_type = "faculty_url_failure" ∧ truthy program_name = true then
    { s with programs_without_faculty_url :=
               dictSet s.programs_without_faculty_url (program_name.getD "") true }
  else if stat_type = "personnel_found" ∧ truthy program_name = true then
    { s with program_personnel_count :=
               dictSet s.program_personnel_count (program_name.getD "")
                 (dictGetD s.program_personnel_count (program_name.getD "") 0 + 1) }
  else if stat_type = "complete_record" ∧ truthy program_name = true then
    { s with program_complete_records :=
               dictSet s.program_complete_records (program_name.getD "")
                 (dictGetD s.program_complete_records (program_name.getD "") 0 + 1)
             total_emails_recorded := s.total_emails_recorded + 1 }
  else if stat_type = "incomplete_record" ∧ truthy program_name = true then
    { s with program_incomplete_records :=
               dictSet s.program_incomplete_records (program_name.getD "")
                 (dictGetD s.program_incomplete_records (program_name.getD "") 0 + 1) }
  else s

/-- Fold a (serialised) sequence of `update_stats` calls. -/
def apply_updates (s : ScraperStatistics) : List (String × Option String) → ScraperStatistics
  | [] => s
  | (t, p) :: rest => apply_updates (update_stats s t p) rest

/-! ## HTML model for the BeautifulSoup traversals

A parsed page is a forest of element nodes.  Each node carries its tag,
optional `id` attribute, class list, optional `href` attribute, its
directly contained text, and its children.  This is what the directory
stage's selectors inspect. -/

mutual
inductive HNode : Type where
  | mk : String → Option String → List String → Option String → String → HForest → HNode
inductive HForest : Type where
  | nil : HForest
  | cons : HNode → HForest → HForest
end

def HNode.tag : HNode → String
  | .mk t _ _ _ _ _ => t

def HNode.idAttr : HNode → Option String
  | .mk _ i _ _ _ _ => i

def HNode.classes : HNode → List String
  | .mk _ _ c _ _ _ => c

def HNode.hrefAttr : HNode → Option String
  | .mk _ _ _ h _ _ => h

def HNode.childNodes : HNode → HForest
  | .mk _ _ _ _ _ ch => ch

/-- Build a forest from a list of nodes (for writing concrete pages). -/
def HForest.ofList : List HNode → HForest
  | [] => .nil
  | n :: rest => .cons n (HForest.ofList rest)

/-! `element.text`: concatenation of all string content in document order. -/

mutual
def nodeText : HNode → String
  | .mk _ _ _ _ x ch => x ++ forestText ch
def forestText : HForest → String
  | .nil => ""
  | .cons n rest => nodeText n ++ forestText rest
end

/-- `soup.find_all(...)` over a forest: all nodes satisfying the predicate,
in document (preorder) order, descendants of matches included. -/
def forestFindAll (p : HNode → Bool) : HForest → List HNode
  | .nil => []
  | .cons (.mk t i c h x ch) rest =>
    (if p (.mk t i c h x ch) then [HNode.mk t i c h x ch] else []) ++
      forestFindAll p ch ++ forestFindAll p rest

/-- `element.find('a')`: first descendant anchor in document order
(the element itself is not considered). -/
def forestFindTag (tagName : String) : HForest → Option HNode
  | .nil => none
  | .cons (.mk t i c h x ch) rest =>
    if t = tagName then some (.mk t i c h x ch)
    else
      match forestFindTag tagName ch with
      | some n => some n
      | none => forestFindTag tagName rest

def HNode.findAnchor (n : HNode) : Option HNode :=
  forestFindTag "a" n.childNodes

/-- `soup.find('div', id=pid)` followed by `find_next_sibling()` walking:
locate the first `div` with the given id (preorder) and return the forest
of its following siblings. -/
def findDivByIdSibs (pid : String) : HForest → Option HForest
  | .nil => none
  | .cons (.mk t i c h x ch) rest =>
    if t = "div" ∧ i = some pid then some rest
    else
      match findDivByIdSibs pid ch with
      | some sibs => some sibs
      | none => findDivByIdSibs pid rest

/-! ## DirectoryWorker.scrape_directory_page (`src/scraper/workers.py:137-229`) -/

/-- The `computer_programs` dict (`workers.py:146-150`). -/
def computerProgramId (program_name : String) : Option String :=
  if program_name = "Computer Technology" then some "CT"
  else if program_name = "Information Technology" then some "IT"
  else if program_name = "Software Technology" then some "ST"
  else none

/-- Class filter for `find_all('div', class_=[...])`: BeautifulSoup matches
an element whose class list contains ANY of the queried classes. -/
def hasAnyClass (n : HNode) (cs : List String) : Bool :=
  n.tag = "div" && n.classes.any (fun c => cs.contains c)

/-- The person-card column classes of layouts 1 and 2 (`workers.py:172,182`). -/
def columnClasses : List String := ["wpb_column", "vc_column_container", "vc_col-sm-4"]

/-- The looser text-block classes of layout 3 (`workers.py:186`). -/
def textBlockClasses : List String := ["wpb_text_column", "wpb_content_element"]

/-- The sibling check of the layout-1 walk (`workers.py:164-168`): a `div`
whose class list contains all of `vc_row`, `wpb_row`, `vc_row-fluid`. -/
def isRowDiv (n : HNode) : Bool :=
  n.tag = "div" && n.classes.contains "vc_row" && n.classes.contains "wpb_row" &&
    n.classes.contains "vc_row-fluid"

/-- The break test of the layout-1 walk (`workers.py:161`):
`current.get('id') in computer_programs.values()`. -/
def isProgramSectionId : Option String → Bool
  | some s => s = "CT" || s = "IT" || s = "ST"
  | none => false

/-- The layout-1 `while current:` walk (`workers.py:158-178`): scan following
siblings, stopping at the next sibling whose id is another program section,
collecting the person-card divs nested in each row container. -/
def layout1Walk : HForest → List HNode
  | .nil => []
  | .cons (.mk t i c h x ch) rest =>
    if isProgramSectionId i then []
    else
      (if isRowDiv (.mk t i c h x ch) then forestFindAll (fun n => hasAnyClass n columnClasses) ch
       else []) ++ layout1Walk rest

/-- Layout 1 in full (`workers.py:152-178`): only for the three computer
programs, anchored at the div with the program's id. -/
def layout1Elements (soup : HForest) (program_name : String) : List HNode :=
  match computerProgramId program_name with
  | none => []
  | some pid =>
    match findDivByIdSibs pid soup with
    | none => []
    | some sibs => layout1Walk sibs

/-- Layout 2 (`workers.py:181-182`): whole-page scan for person-card divs. -/
def layout2Elements (soup : HForest) : List HNode :=
  forestFindAll (fun n => hasAnyClass n columnClasses) soup

/-- Layout 3 (`workers.py:185-186`): whole-page scan for text-block divs. -/
def layout3Elements (soup : HForest) : List HNode :=
  forestFindAll (fun n => hasAnyClass n textBlockClasses) soup

/-- The ordered fallback (`workers.py:152-186`): layout 1, else 2, else 3. -/
def selectWorkerElements (soup : HForest) (program_name : String) : List HNode :=
  let l1 := layout1Elements soup program_name
  if l1.isEmpty then
    let l2 := layout2Elements soup
    if l2.isEmpty then layout3Elements soup else l2
  else l1

/-- A contact record (`ContactInfo` dataclass, `data_models.py:5-11`). -/
structure ContactInfo where
  email : Option String
  name : Option String
  office : Option String
  department : Option String
  profile_url : Option String
deriving DecidableEq

/-- The element loop of `scrape_directory_page` (`workers.py:192-219`):
for each element take its first anchor; skip placeholder/empty anchors;
claim the `(profile_url, program_name)` pair in the shared deduplicator;
on success build a `ContactInfo` stub, record `personnel_found`. -/
def processElements (college_name program_name : String) :
    ScraperStatistics → DedupState → List HNode →
    ScraperStatistics × DedupState × List ContactInfo
  | stats, dedup, [] => (stats, dedup, [])
  | stats, dedup, el :: rest =>
    match el.findAnchor with
    | none => processElements college_name program_name stats dedup rest
    | some link =>
      let full_name := pyStrip (nodeText link)
      if full_name = "Faculty Profiles" then
        processElements college_name program_name stats dedup rest
      else
        let profile_url := pyStrip (link.hrefAttr.getD "")
        if full_name = "" ∨ profile_url = "" then
          processElements college_name program_name stats dedup rest
        else
          let cl := tryClaim dedup profile_url program_name
          if cl.1 then
            let contact : ContactInfo :=
              { email := none
                name := some full_name
                office := some college_name
                department := some program_name
                profile_url := some profile_url }
            let stats' := update_stats stats "personnel_found" (some program_name)
            let r := processElements college_name program_name stats' cl.2 rest
            (r.1, r.2.1, contact :: r.2.2)
          else processElements college_name program_name stats cl.2 rest

/-- `scrape_directory_page` (`workers.py:137-229`): fetch the page (a failed
fetch raises, is caught, and yields `[]`), pick the first layout that
yields elements (none at all raises → `[]`), run the element loop; an
empty contact list raises → `[]`, which coincides with the loop result. -/
def scrape_directory_page (stats : ScraperStatistics) (dedup : DedupState)
    (fetch : Option HForest) (college_name program_name : String) :
    ScraperStatistics × DedupState × List ContactInfo :=
  match fetch with
  | none => (stats, dedup, [])
  | some soup =>
    let els := selectWorkerElements soup program_name
    if els.isEmpty then (stats, dedup, [])
    else processElements college_name program_name stats dedup els

/-! ## ProfileWorker e-mail extraction (`src/scraper/workers.py:263-284`)

The regex `[a-zA-Z0-9._%+-]+@[a-zA-Z0-9.-]+\.[a-zA-Z]{2,}` applied with
`re.findall`, of which the code keeps `emails[0]`, i.e. the leftmost
match.  The matcher below reproduces the backtracking semantics of this
concrete pattern: because `@` is not a local-part character, the
local part of a match at a given start is exactly the maximal run of
local-part characters there; the greedy domain run backtracks to the
last `.` that is followed by at least two letters. -/

/-- `[a-zA-Z0-9._%+-]`. -/
def isLocalChar (c : Char) : Bool :=
  c.isAlpha || c.isDigit || c = '.' || c = '_' || c = '%' || c = '+' || c = '-'

/-- `[a-zA-Z0-9.-]`. -/
def isDomainChar (c : Char) : Bool :=
  c.isAlpha || c.isDigit || c = '.' || c = '-'

/-- Split off the maximal prefix satisfying `p` (the greedy `+`). -/
def splitWhile (p : Char → Bool) : List Char → List Char × List Char
  | [] => ([], [])
  | c :: cs =>
    if p c then
      let (a, b) := splitWhile p cs
      (c :: a, b)
    else ([], c :: cs)

/-- Length of the maximal letter run (the greedy `[a-zA-Z]{2,}`). -/
def alphaRunLen (cs : List Char) : Nat :=
  (cs.takeWhile Char.isAlpha).length

/-- Whether index `d` of the domain run can serve as the `\.` of the
pattern: at least one domain character before it, a literal `.` at it,
and at least two letters after it. -/
def validDot (dom : List Char) (d : Nat) : Bool :=
  1 ≤ d && dom.getD d ' ' = '.' && 2 ≤ alphaRunLen (dom.drop (d + 1))

/-- The backtracking choice: the greedy domain `+` yields the LAST valid
dot position of the domain-character run. -/
def lastValidDot (dom : List Char) : Option Nat :=
  ((List.range dom.length).filter (validDot dom)).getLast?

/-- A match of the e-mail pattern anchored at the start of `cs`, if any:
maximal local-part run, a literal `@`, then the domain-run split at the
last valid dot, keeping the maximal letter run after it. -/
def matchEmailAt (cs : List Char) : Option (List Char) :=
  let s1 := splitWhile isLocalChar cs
  if s1.1.isEmpty then none
  else
    match s1.2 with
    | '@' :: rest2 =>
      let dom := (splitWhile isDomainChar rest2).1
      match lastValidDot dom with
      | some d =>
        some (s1.1 ++ '@' :: (dom.take d ++ '.' :: (dom.drop (d + 1)).takeWhile Char.isAlpha))
      | none => none
    | _ => none

/-- The leftmost match in the text (`re.findall(...)[0]` when non-empty). -/
def findFirstEmail : List Char → Option (List Char)
  | [] => none
  | c :: cs =>
    match matchEmailAt (c :: cs) with
    | some m => some m
    | none => findFirstEmail cs

/-- The e-mail the profile stage extracts from a page's visible text. -/
def extractEmail (page_text : String) : Option String :=
  match findFirstEmail page_text.data with
  | some m => some (String.mk m)
  | none => none

/-- `ProfileWorker.scrape_profile_page` (`workers.py:263-284`): a failed
navigation returns the contact unchanged; otherwise the first e-mail
match in the page's visible text, if any, is written into the record's
`email` field and nothing else changes. -/
def scrape_profile_page (fetch : Option String) (contact : ContactInfo) : ContactInfo :=
  match fetch with
  | none => contact
  | some page_text =>
    match extractEmail page_text with
    | some e => { contact with email := some e }
    | none => contact

/-- `ProfileWorker.process`, per dequeued contact (`workers.py:290-307`):
scrape the profile; a record with no truthy e-mail raises, is caught, and
records `incomplete_record` for the contact's department; otherwise the
record goes to the result queue and `complete_record` is recorded. -/
def process_profile_item (stats : ScraperStatistics) (fetch : Option String)
    (contact : ContactInfo) : ScraperStatistics × Option ContactInfo :=
  let updated := scrape_profile_page fetch contact
  if truthy updated.email then
    (update_stats stats "complete_record" updated.department, some updated)
  else
    (update_stats stats "incomplete_record" contact.department, none)

/-! ## ProgramWorker (`src/scraper/workers.py:12-130`) -/

/-- An `<a>` link on a program page, as the faculty-link search sees it. -/
structure PageLink where
  text : String
  href : String
deriving DecidableEq

/-- Lowercasing used by the Python `str.lower()` calls. -/
def strLower (s : String) : String := String.mk (s.data.map Char.toLower)

/-- Whether `needle` starts `hay`. -/
def listStartsWith : List Char → List Char → Bool
  | [], _ => true
  | _ :: _, [] => false
  | a :: as, b :: bs => a = b && listStartsWith as bs

/-- Python's `sub in s` substring test. -/
def listHasSub : List Char → List Char → Bool
  | hay, needle =>
    match hay with
    | [] => needle.isEmpty
    | _ :: t => listStartsWith needle hay || listHasSub t needle

def strHasSub (s sub : String) : Bool := listHasSub s.data sub.data

/-- `urllib.parse.urljoin`, modelled for the shapes exercised here: an
href that already carries a scheme is returned unchanged, otherwise it is
resolved against the base by concatenation. -/
def urljoin (base url : String) : String :=
  if strHasSub url "://" then url else base ++ url

/-- The filter `href and 'faculty' in href.lower()` (`workers.py:75`). -/
def isFacultyHref (l : PageLink) : Bool :=
  strHasSub (strLower l.href) "faculty"

/-- The loop over `faculty_links` (`workers.py:79-80`): the first link
whose visible text contains `'faculty profile'` is the one acted upon. -/
def firstProfileLink : List PageLink → Option PageLink
  | [] => none
  | l :: rest =>
    if strHasSub (strLower l.text) "faculty profile" then some l
    else firstProfileLink rest

/-- `ProgramWorker.get_faculty_page` (`workers.py:69-101`): fetch failure,
no faculty-href links, or no link with faculty-profile text all raise and
are caught, yielding `None`; otherwise the resolved URL is claimed for
the program, with `None` returned on a duplicate claim. -/
def get_faculty_page (base_url : String) (dedup : DedupState)
    (fetch : Option (List PageLink)) (program_name : String) :
    Option String × DedupState :=
  match fetch with
  | none => (none, dedup)
  | some links =>
    match firstProfileLink (links.filter isFacultyHref) with
    | none => (none, dedup)
    | some l =>
      let url := urljoin base_url l.href
      match tryClaim dedup url program_name with
      | (true, d') => (some url, d')
      | (false, d') => (none, d')

/-- `ProgramWorker.process`, per dequeued item (`workers.py:106-126`):
record the `program` visit, look for the faculty URL; a `None` result
(for whatever reason, duplicate claims included) raises, is caught, and
records `faculty_url_failure`; a URL records `faculty_url_success` and
becomes a directory-queue item `(college, program, faculty_url)`. -/
def process_program_item (base_url : String) (stats : ScraperStatistics)
    (dedup : DedupState) (fetch : Option (List PageLink))
    (college_name program_name : String) :
    ScraperStatistics × DedupState × Option (String × String × String) :=
  let stats1 := update_stats stats "program" none
  match get_faculty_page base_url dedup fetch program_name with
  | (none, d') =>
    (update_stats stats1 "faculty_url_failure" (some program_name), d', none)
  | (some furl, d') =>
    (update_stats stats1 "faculty_url_success" (some program_name), d',
      some (college_name, program_name, furl))

/-! ## The sequential pipeline (`NestedWebScraper.run`, `nested_scraper.py:118-200`)

A run-to-completion execution is serialised stage by stage: discovery
seeds the program queue, the program stage maps program items to
directory items, the directory stage maps directory items to contact
stubs, the profile stage maps stubs to completed records, and the CSV
worker writes each completed record as one row.  HTTP and rendered
fetches are supplied as oracles from URL to page content. -/

/-- The per-college body of `get_college_program_urls` (`workers.py:44-59`):
each discovered college with a program submenu enqueues one
`(college, program, url)` triple per program and records one `college`
statistic.  The root-page menu walk itself is abstracted to its output:
the college → list of `(program name, program url)` mapping. -/
def discover (stats : ScraperStatistics)
    (colleges : List (String × List (String × String))) :
    ScraperStatistics × List (String × String × String) :=
  match colleges with
  | [] => (stats, [])
  | (college, programs) :: rest =>
    let items := programs.map (fun (pr : String × String) => (college, pr.1, pr.2))
    let stats' := update_stats stats "college" none
    let (s'', more) := discover stats' rest
    (s'', items ++ more)

/-- The program stage over its whole queue (`workers.py:103-126`),
one item at a time. -/
def runProgramStage (base_url : String) (programFetch : String → Option (List PageLink)) :
    ScraperStatistics → DedupState → List (String × String × String) →
    ScraperStatistics × DedupState × List (String × String × String)
  | stats, dedup, [] => (stats, dedup, [])
  | stats, dedup, (college, program, url) :: rest =>
    let (s', d', out) :=
      process_program_item base_url stats dedup (programFetch url) college program
    let (s'', d'', outs) := runProgramStage base_url programFetch s' d' rest
    (s'', d'', (match out with | some it => [it] | none => []) ++ outs)

/-- The directory stage over its whole queue (`workers.py:231-256`): each
item's contacts are forwarded to the profile queue; an empty contact list
only raises and is caught. -/
def runDirectoryStage (dirFetch : String → Option HForest) :
    ScraperStatistics → DedupState → List (String × String × String) →
    ScraperStatistics × DedupState × List ContactInfo
  | stats, dedup, [] => (stats, dedup, [])
  | stats, dedup, (college, program, url) :: rest =>
    let (s', d', contacts) := scrape_directory_page stats dedup (dirFetch url) college program
    let (s'', d'', more) := runDirectoryStage dirFetch s' d' rest
    (s'', d'', contacts ++ more)

/-- The profile stage over its whole queue (`workers.py:286-307`): each
contact with an extracted e-mail goes to the result queue. -/
def runProfileStage (profFetch : String → Option String) :
    ScraperStatistics → List ContactInfo → ScraperStatistics × List ContactInfo
  | stats, [] => (stats, [])
  | stats, contact :: rest =>
    let (s', out) := process_profile_item stats (profFetch (contact.profile_url.getD "")) contact
    let (s'', outs) := runProfileStage profFetch s' rest
    (s'', (match out with | some c => [c] | none => []) ++ outs)

/-- Final state of a run-to-completion execution. -/
structure PipelineResult where
  stats : ScraperStatistics
  dedup : DedupState
  csvRows : List ContactInfo
deriving DecidableEq

/-- A whole run of the pipeline (`nested_scraper.py:118-200`) to
completion: discovery, then the three stages, then the CSV worker, which
writes one row per completed record (`csv_worker`,
`nested_scraper.py:65-87`). -/
def runPipeline (base_url : String) (num_threads scrape_time_minutes : Nat)
    (colleges : List (String × List (String × String)))
    (programFetch : String → Option (List PageLink))
    (dirFetch : String → Option HForest)
    (profFetch : String → Option String) : PipelineResult :=
  let stats0 := ScraperStatistics.init base_url num_threads scrape_time_minutes
  let (s1, programItems) := discover stats0 colleges
  let (s2, d2, directoryItems) := runProgramStage base_url programFetch s1 [] programItems
  let (s3, d3, contacts) := runDirectoryStage dirFetch s2 d2 directoryItems
  let (s4, results) := runProfileStage profFetch s3 contacts
  { stats := s4, dedup := d3, csvRows := results }

/-! ## Worker loop conditions and the shared deadline (claim C2)

The `while` heads of the three worker loops, as functions of the two
time-varying observations they read: the `active` flag and whether
`datetime.now() < end_time` still holds. -/

/-- `ProgramWorker.process` loop head (`workers.py:106`):
`while self.scraper.active and datetime.now() < self.scraper.end_time`. -/
def programLoopCond (active beforeDeadline : Bool) : Bool :=
  active && beforeDeadline

/-- `DirectoryWorker.process` loop head (`workers.py:234`):
`while self.scraper.active`. -/
def directoryLoopCond (active beforeDeadline : Bool) : Bool :=
  active

/-- `ProfileWorker.process` loop head (`workers.py:290`):
`while self.scraper.active`. -/
def profileLoopCond (active beforeDeadline : Bool) : Bool :=
  active

/-- A worker loop run against a schedule of per-iteration observations
`(active, beforeDeadline)`: while the loop head holds, one item is
dequeued per iteration; when it fails, the worker exits. -/
def itemsTaken {α : Type} (cond : Bool → Bool → Bool) :
    List (Bool × Bool) → List α → List α
  | [], _ => []
  | _, [] => []
  | (a, b) :: ticks, x :: xs =>
    if cond a b then x :: itemsTaken cond ticks xs else []

/-! ## Orchestrator shutdown (claim C3)

The `finally:` blocks of the two `NestedWebScraper.run` implementations,
as the sequence of shutdown steps they perform. -/

inductive OrchestratorStep : Type where
  | clearActiveFlag : OrchestratorStep
  | pushSentinels : String → Nat → OrchestratorStep
  | joinWorkers : Nat → OrchestratorStep
  | pushResultSentinel : OrchestratorStep
  | writeStatsFile : OrchestratorStep
deriving DecidableEq

/-- Shutdown sequence of the package orchestrator
(`nested_scraper.py:189-200`): clear `active`, join every thread with a
5-second timeout, write the statistics file.  No sentinel is pushed onto
any queue and the result queue is not explicitly drained. -/
def nestedScraperShutdown (num_threads : Nat) : List OrchestratorStep :=
  [.clearActiveFlag, .joinWorkers 5, .writeStatsFile]

/-- Shutdown sequence of the legacy monolithic orchestrator
(`main.py:583-601`): clear `active`, push one `None` per worker onto each
stage's input queue, join with a 5-second timeout, then push one `None`
onto the result queue. -/
def mainPyShutdown (num_threads : Nat) : List OrchestratorStep :=
  [.clearActiveFlag,
   .pushSentinels "program_queue" (max 1 num_threads),
   .pushSentinels "directory_queue" (max 1 num_threads),
   .pushSentinels "profile_queue" num_threads,
   .joinWorkers 5,
   .pushResultSentinel]

def OrchestratorStep.isPushSentinels : OrchestratorStep → Bool
  | .pushSentinels _ _ => true
  | _ => false

/-! ## Statistics file write (`nested_scraper.py:89-116`, claim C8) -/

/-- What the statistics file parses to before the run's write. -/
inductive StatsFileContent : Type where
  | missing : StatsFileContent
  | corrupt : StatsFileContent
  | single : ScraperStatistics → StatsFileContent
  | snapshots : List ScraperStatistics → StatsFileContent
deriving DecidableEq

/-- `NestedWebScraper.stats_worker` (`nested_scraper.py:89-116`): load the
existing JSON (a missing or unparsable file starts fresh; a lone object
is wrapped into a list), append this run's snapshot once, write back. -/
def stats_worker_write (prior : StatsFileContent) (snapshot : ScraperStatistics) :
    List ScraperStatistics :=
  match prior with
  | .missing => [] ++ [snapshot]
  | .corrupt => [] ++ [snapshot]
  | .single s => [s] ++ [snapshot]
  | .snapshots l => l ++ [snapshot]

/-! ## The statistic types the workers invoke (claim C10)

Collected from every `update_stats` call site in
`src/scraper/workers.py`, `src/scraper/nested_scraper.py` and
`src/main.py`: lines 59, 113, 118, 125, 219, 300, 306 of `workers.py`
and the corresponding calls of `main.py`. -/

def workerStatCallTypes : List String :=
  ["college", "program", "faculty_url_success", "faculty_url_failure",
   "personnel_found", "complete_record", "incomplete_record"]

/-- Number of `faculty_url_success` updates in a sequence. -/
def countFacultyUrlSuccess (us : List (String × Option String)) : Nat :=
  (us.filter (fun u => u.1 = "faculty_url_success")).length

/-! ## Claim C5: spec-side descriptions of the directory stage's output -/

/-- The anchors the spec sentence expects to become stubs, stated from the
spec's words for comparison with the code: from each element, its first
anchor, excluding one whose text is exactly "Faculty Profiles" or whose
name/href is empty. -/
def claimMatchingAnchors (els : List HNode) : List HNode :=
  els.filterMap (fun el =>
    match el.findAnchor with
    | none => none
    | some link =>
      let nm := pyStrip (nodeText link)
      let url := pyStrip (link.hrefAttr.getD "")
      if nm = "Faculty Profiles" ∨ nm = "" ∨ url = "" then none
      else some link)

/-- The amended expectation: as `claimMatchingAnchors`, but an anchor also
threads the shared deduplicator, so a `(href, program)` pair already
claimed — by an earlier stage or an earlier anchor of the same page — is
excluded as well. -/
def specDirectoryStubs (college_name program_name : String) :
    DedupState → List HNode → List ContactInfo × DedupState
  | dedup, [] => ([], dedup)
  | dedup, el :: rest =>
    match el.findAnchor with
    | none => specDirectoryStubs college_name program_name dedup rest
    | some link =>
      let nm := pyStrip (nodeText link)
      let url := pyStrip (link.hrefAttr.getD "")
      if nm = "Faculty Profiles" ∨ nm = "" ∨ url = "" then
        specDirectoryStubs college_name program_name dedup rest
      else
        let cl := tryClaim dedup url program_name
        if cl.1 then
          let r := specDirectoryStubs college_name program_name cl.2 rest
          ({ email := none
             name := some nm
             office := some college_name
             department := some program_name
             profile_url := some url } :: r.1, r.2)
        else specDirectoryStubs college_name program_name cl.2 rest

/-! ## Concrete test pages and fetch oracles -/

/-- A person-card element: a column div containing one anchor. -/
def personCard (nm href : String) : HNode :=
  .mk "div" none ["wpb_column"] none ""
    (.cons (.mk "a" none [] (some href) nm .nil) .nil)

/-- A directory page with two identical person cards (same anchor text and
href), laid out in the generic person-card class of layout 2. -/
def dupAnchorPage : HForest :=
  HForest.ofList [personCard "Alice A" "https://u.edu/alice",
                  personCard "Alice A" "https://u.edu/alice"]

/-- A directory page with two distinct person cards, laid out in the
generic person-card class of layout 2. -/
def twoContactPage : HForest :=
  HForest.ofList [personCard "Alice A" "https://u.edu/alice",
                  personCard "Bob B" "https://u.edu/bob"]

/-- The single college/program input of the end-to-end scenario. -/
def scenarioColleges : List (String × List (String × String)) :=
  [("College of Science", [("Biology", "https://u.edu/prog")])]

/-- Program-page fetch oracle: the one program page carries one
faculty-profiles link. -/
def scenarioProgramFetch (url : String) : Option (List PageLink) :=
  if url = "https://u.edu/prog" then
    some [{ text := "Faculty Profiles", href := "https://u.edu/faculty" }]
  else none

/-- Directory-page fetch oracle: the faculty page yields the two contacts. -/
def scenarioDirFetch (url : String) : Option HForest :=
  if url = "https://u.edu/faculty" then some twoContactPage else none

/-- Rendered profile-page oracle: Alice's page shows an e-mail address,
Bob's does not. -/
def scenarioProfFetch (url : String) : Option String :=
  if url = "https://u.edu/alice" then some "Reach me at alice@u.edu today"
  else if url = "https://u.edu/bob" then some "No address shown"
  else none

/-- The end-to-end scenario of claim C7 run to completion. -/
def scenarioResult : PipelineResult :=
  runPipeline "https://u.edu/" 8 3 scenarioColleges
    scenarioProgramFetch scenarioDirFetch scenarioProfFetch

/-! ## Theorems -/

theorem dictGet_dictSet_eq {α : Type} (m : List (String × α)) (k : String) (v : α) :
    dictGet? (dictSet m k v) k = some v := by
  induction m with
  | nil => simp [dictSet, dictGet?]
  | cons hd tl ih =>
    obtain ⟨k', v'⟩ := hd
    by_cases h : k' = k <;> simp [dictSet, dictGet?, h, ih]

theorem dictGet_dictSet_ne {α : Type} (m : List (String × α)) (k k' : String) (v : α)
    (h : k' ≠ k) : dictGet? (dictSet m k v) k' = dictGet? m k' := by
  induction m with
  | nil => simp [dictSet, dictGet?, Ne.symm h]
  | cons hd tl ih =>
    obtain ⟨k₀, v₀⟩ := hd
    by_cases h0 : k₀ = k
    · subst h0
      simp [dictSet, dictGet?, Ne.symm h]
    · by_cases h1 : k₀ = k' <;> simp [dictSet, dictGet?, h0, h1, ih, h]

theorem tryClaim_fst (m : DedupState) (u p : String) :
    (tryClaim m u p).1 = !claimed m u p := by
  unfold tryClaim claimed
  cases h : dictGet? m u with
  | none => simp
  | some progs => by_cases hc : p ∈ progs <;> simp [hc]

theorem claimed_tryClaim_self (m : DedupState) (u p : String) :
    claimed (tryClaim m u p).2 u p = true := by
  unfold tryClaim claimed
  cases h : dictGet? m u with
  | none => simp [dictGet_dictSet_eq]
  | some progs =>
    by_cases hc : p ∈ progs
    · simp [hc, h]
    · simp [hc, dictGet_dictSet_eq]

theorem claimed_tryClaim_mono (m : DedupState) (u p u' p' : String)
    (h : claimed m u p = true) : claimed (tryClaim m u' p').2 u p = true := by
  unfold claimed at h
  unfold tryClaim claimed
  cases hu' : dictGet? m u' with
  | none =>
    by_cases he : u = u'
    · subst he; simp [hu'] at h
    · rw [dictGet_dictSet_ne m u' u _ he]
      cases hu : dictGet? m u with
      | none => simp [hu] at h
      | some progs => simp [hu] at h ⊢; exact h
  | some progs =>
    by_cases hc : p' ∈ progs
    · simp [hc]
      cases hu : dictGet? m u with
      | none => simp [hu] at h
      | some ps => simp [hu] at h ⊢; exact h
    · simp only [hc, if_false, if_neg hc]
      by_cases he : u = u'
      · subst he
        rw [hu'] at h
        simp only [decide_eq_true_eq] at h
        simp [dictGet_dictSet_eq, List.mem_append, h]
      · rw [dictGet_dictSet_ne m u' u _ he]
        cases hu : dictGet? m u with
        | none => simp [hu] at h
        | some ps => simp [hu] at h ⊢; exact h

theorem claimed_runClaims_mono (m : DedupState) (ops : List (String × String))
    (u p : String) (h : claimed m u p = true) :
    claimed (runClaims m ops) u p = true := by
  induction ops generalizing m with
  | nil => exact h
  | cons op rest ih =>
    obtain ⟨u', p'⟩ := op
    exact ih _ (claimed_tryClaim_mono m u p u' p' h)

/-- C1: `tryClaim` returns true exactly once per distinct `(url, programName)`
pair: the first call for a new url returns true; a call for a known url
with a program name not yet in its set adds the name and returns true;
and after any call for the pair, every later call with the identical pair
— regardless of the interleaved claims of other callers — returns false
until the deduplicator is reset. -/
theorem tryClaim_exactly_once_per_pair (m : DedupState) (url programName : String) :
    (dictGet? m url = none → (tryClaim m url programName).1 = true) ∧
    (∀ progs, dictGet? m url = some progs → programName ∉ progs →
      (tryClaim m url programName).1 = true ∧
      claimed (tryClaim m url programName).2 url programName = true) ∧
    (∀ ops, (tryClaim (runClaims (tryClaim m url programName).2 ops) url programName).1 = false) := by
  refine ⟨?_, ?_, ?_⟩
  · intro h
    simp [tryClaim, h]
  · intro progs h hn
    exact ⟨by simp [tryClaim, h, hn], claimed_tryClaim_self m url programName⟩
  · intro ops
    have hc : claimed (runClaims (tryClaim m url programName).2 ops) url programName = true :=
      claimed_runClaims_mono _ ops _ _ (claimed_tryClaim_self m url programName)
    rw [tryClaim_fst, hc]
    rfl

/-- Witness for C1 at a concrete state: a fresh claim succeeds, and after
an interleaved claim by another program the identical pair fails. -/
theorem tryClaim_exactly_once_per_pair_witness :
    (tryClaim [] "https://u.edu/faculty" "Biology").1 = true ∧
    (tryClaim (runClaims (tryClaim [] "https://u.edu/faculty" "Biology").2
        [("https://u.edu/faculty", "Chemistry")]) "https://u.edu/faculty" "Biology").1 = false :=
  ⟨(tryClaim_exactly_once_per_pair [] "https://u.edu/faculty" "Biology").1 rfl,
   (tryClaim_exactly_once_per_pair [] "https://u.edu/faculty" "Biology").2.2
     [("https://u.edu/faculty", "Chemistry")]⟩

/-- C2 counterexample: with the deadline already exceeded but the active
flag still set, the directory and profile workers still accept a queued
item on their next iteration — their loop heads do not poll the deadline
— while the program worker, whose loop head does poll it, stops. -/
theorem deadline_poll_counterexample :
    itemsTaken directoryLoopCond [(true, false)] [(0 : Nat)] = [0] ∧
    itemsTaken profileLoopCond [(true, false)] [(0 : Nat)] = [0] ∧
    itemsTaken programLoopCond [(true, false)] [(0 : Nat)] = [] := by
  decide

/-- C2 amended: only ProgramStage's worker loop polls the shared deadline;
once the deadline is exceeded it accepts no further items.  The loop
heads of DirectoryStage and ProfileStage test only the `active` flag, so
those workers keep accepting items after the deadline until the flag is
cleared. -/
theorem deadline_poll_amended :
    (∀ (active : Bool) (ticks : List (Bool × Bool)) (xs : List Nat),
      itemsTaken programLoopCond ((active, false) :: ticks) xs = []) ∧
    (∀ active beforeDeadline, directoryLoopCond active beforeDeadline = active) ∧
    (∀ active beforeDeadline, profileLoopCond active beforeDeadline = active) := by
  refine ⟨?_, fun _ _ => rfl, fun _ _ => rfl⟩
  intro active ticks xs
  cases xs with
  | nil => rfl
  | cons x xs => simp [itemsTaken, programLoopCond]

/-- C3 counterexample: the package orchestrator's shutdown sequence
(`nested_scraper.py:189-200`) contains no sentinel push for any stage
queue and no result-queue sentinel or drain step, contradicting the
claimed clear-flag → push-sentinels → join → drain sequence. -/
theorem shutdown_sequence_counterexample :
    ((nestedScraperShutdown 8).filter OrchestratorStep.isPushSentinels = []) ∧
    OrchestratorStep.pushResultSentinel ∉ nestedScraperShutdown 8 := by
  decide

/-- C3 amended: the package orchestrator's shutdown clears the active
flag, joins all worker threads with a 5-second timeout, and then writes
the statistics file; it pushes no sentinels and does not explicitly
drain the result queue.  The claimed sentinel-based sequence survives
only in the legacy `main.py` orchestrator: clear the flag, push one
sentinel per worker onto each of the three stage queues, join with a
bounded timeout, then push a single sentinel onto the result queue. -/
theorem shutdown_sequence_amended (n : Nat) :
    ((nestedScraperShutdown n).all (fun s => !s.isPushSentinels) = true) ∧
    (nestedScraperShutdown n).head? = some .clearActiveFlag ∧
    (nestedScraperShutdown n).getLast? = some .writeStatsFile ∧
    OrchestratorStep.joinWorkers 5 ∈ nestedScraperShutdown n ∧
    (mainPyShutdown n).head? = some .clearActiveFlag ∧
    (mainPyShutdown n).filter OrchestratorStep.isPushSentinels =
      [.pushSentinels "program_queue" (max 1 n),
       .pushSentinels "directory_queue" (max 1 n),
       .pushSentinels "profile_queue" n] ∧
    (mainPyShutdown n).getLast? = some .pushResultSentinel := by
  refine ⟨rfl, rfl, rfl, ?_, rfl, rfl, rfl⟩
  simp [nestedScraperShutdown]

/-- C4 counterexample: a program item whose faculty link is already
claimed for the same program (so `tryClaim` returns false) is not merely
skipped with a log — the worker's `except:` branch records a
`faculty_url_failure` entry for the program (`workers.py:115-126`). -/
theorem duplicate_skip_counterexample :
    (process_program_item "https://u.edu/" (ScraperStatistics.init "https://u.edu/" 8 3)
        [("https://u.edu/faculty", ["Biology"])]
        (some [{ text := "Faculty Profiles", href := "https://u.edu/faculty" }])
        "College of Science" "Biology").2.2 = none ∧
    dictGet? (process_program_item "https://u.edu/" (ScraperStatistics.init "https://u.edu/" 8 3)
        [("https://u.edu/faculty", ["Biology"])]
        (some [{ text := "Faculty Profiles", href := "https://u.edu/faculty" }])
        "College of Science" "Biology").1.programs_without_faculty_url "Biology" = some true := by
  decide

/-- C4 amended: when the deduplicator refuses the `(facultyUrl, program)`
pair, `get_faculty_page` logs and returns `None`, but the program
worker's loop then raises `ValueError` internally, enqueues nothing, and
records a `faculty_url_failure` entry for that program — the same
treatment as a genuine failure. -/
theorem duplicate_skip_amended (base : String) (stats : ScraperStatistics)
    (dedup : DedupState) (links : List PageLink) (college program : String) (l : PageLink)
    (hl : firstProfileLink (links.filter isFacultyHref) = some l)
    (hc : claimed dedup (urljoin base l.href) program = true)
    (hp : program ≠ "") :
    (process_program_item base stats dedup (some links) college program).2.2 = none ∧
    dictGet? (process_program_item base stats dedup (some links) college
        program).1.programs_without_faculty_url program = some true := by
  have hfst : (tryClaim dedup (urljoin base l.href) program).1 = false := by
    rw [tryClaim_fst, hc]; rfl
  rcases ht : tryClaim dedup (urljoin base l.href) program with ⟨b, d'⟩
  rw [ht] at hfst
  simp only at hfst
  subst hfst
  simp only [process_program_item, get_faculty_page, hl, ht]
  refine ⟨trivial, ?_⟩
  simp [update_stats, truthy, hp, dictGet_dictSet_eq]

/-- Witness for C4 amended at a concrete duplicate claim. -/
theorem duplicate_skip_amended_witness :
    (process_program_item "https://u.edu/" (ScraperStatistics.init "https://u.edu/" 8 3)
        [("https://u.edu/chem-faculty", ["Chemistry"])]
        (some [{ text := "Faculty Profiles", href := "https://u.edu/chem-faculty" }])
        "College of Science" "Chemistry").2.2 = none ∧
    dictGet? (process_program_item "https://u.edu/" (ScraperStatistics.init "https://u.edu/" 8 3)
        [("https://u.edu/chem-faculty", ["Chemistry"])]
        (some [{ text := "Faculty Profiles", href := "https://u.edu/chem-faculty" }])
        "College of Science" "Chemistry").1.programs_without_faculty_url "Chemistry" =
      some true :=
  duplicate_skip_amended "https://u.edu/" (ScraperStatistics.init "https://u.edu/" 8 3)
    [("https://u.edu/chem-faculty", ["Chemistry"])]
    [{ text := "Faculty Profiles", href := "https://u.edu/chem-faculty" }]
    "College of Science" "Chemistry"
    { text := "Faculty Profiles", href := "https://u.edu/chem-faculty" }
    (by decide) (by decide) (by decide)

theorem processElements_eq_spec (college program : String) (els : List HNode) :
    ∀ (stats : ScraperStatistics) (dedup : DedupState),
      (processElements college program stats dedup els).2.2 =
        (specDirectoryStubs college program dedup els).1 ∧
      (processElements college program stats dedup els).2.1 =
        (specDirectoryStubs college program dedup els).2 := by
  induction els with
  | nil => intro stats dedup; exact ⟨rfl, rfl⟩
  | cons el rest ih =>
    intro stats dedup
    cases hA : el.findAnchor with
    | none => simp [processElements, specDirectoryStubs, hA, ih stats dedup]
    | some link =>
      by_cases hFP : pyStrip (nodeText link) = "Faculty Profiles"
      · simp [processElements, specDirectoryStubs, hA, hFP, ih stats dedup]
      · by_cases hnm : pyStrip (nodeText link) = ""
        · simp [processElements, specDirectoryStubs, hA, hFP, hnm, ih stats dedup]
        · by_cases hurl : pyStrip (link.hrefAttr.getD "") = ""
          · simp [processElements, specDirectoryStubs, hA, hFP, hnm, hurl, ih stats dedup]
          · cases hb : (tryClaim dedup (pyStrip (link.hrefAttr.getD "")) program).1 with
            | false =>
              simp [processElements, specDirectoryStubs, hA, hFP, hnm, hurl, hb,
                ih stats ((tryClaim dedup (pyStrip (link.hrefAttr.getD "")) program).2)]
            | true =>
              simp [processElements, specDirectoryStubs, hA, hFP, hnm, hurl, hb,
                ih (update_stats stats "personnel_found" (some program))
                  ((tryClaim dedup (pyStrip (link.hrefAttr.getD "")) program).2)]

/-- C5 counterexample: on a page where the layout-(a) containers are
absent and the generic person-card class is present, two matching anchors
(identical, neither a "Faculty Profiles" placeholder nor empty) do NOT
both become stubs: the shared deduplicator silently drops the repeat, so
the code yields one contact where the claim demands one per anchor. -/
theorem directory_stubs_counterexample :
    (claimMatchingAnchors (layout2Elements dupAnchorPage)).length = 2 ∧
    (layout1Elements dupAnchorPage "Computer Studies").isEmpty = true ∧
    (scrape_directory_page (ScraperStatistics.init "https://u.edu/" 8 3) []
        (some dupAnchorPage) "College of Science" "Computer Studies").2.2.length = 1 := by
  decide

/-- C5 amended: the three layout strategies are still tried in the fixed
order (a), (b), (c) with the first non-empty result winning, and on a
page where (a) yields nothing but (b) matches, strategy (b) is used and
each matching anchor becomes one ContactStub — except an anchor whose
text is exactly "Faculty Profiles", whose name or href is empty, or whose
`(href, program)` pair the shared deduplicator has already claimed
(including by an identical earlier anchor of the same page), which is
excluded. -/
theorem directory_stubs_amended (stats : ScraperStatistics) (dedup : DedupState)
    (soup : HForest) (college program : String)
    (h1 : layout1Elements soup program = [])
    (h2 : layout2Elements soup ≠ []) :
    selectWorkerElements soup program = layout2Elements soup ∧
    (scrape_directory_page stats dedup (some soup) college program).2.2 =
      (specDirectoryStubs college program dedup (layout2Elements soup)).1 := by
  have hsel : selectWorkerElements soup program = layout2Elements soup := by
    simp [selectWorkerElements, h1, h2]
  refine ⟨hsel, ?_⟩
  have h2e : (layout2Elements soup).isEmpty = false := by
    cases hle : layout2Elements soup with
    | nil => exact absurd hle h2
    | cons a l => rfl
  simp only [scrape_directory_page, hsel, h2e, Bool.false_eq_true, if_false]
  exact (processElements_eq_spec college program (layout2Elements soup) stats dedup).1

/-- Witness for C5 amended: on the two-contact page both anchors pass the
filter against a fresh deduplicator and become exactly the two stubs. -/
theorem directory_stubs_amended_witness :
    selectWorkerElements twoContactPage "Biology" = layout2Elements twoContactPage ∧
    (scrape_directory_page (ScraperStatistics.init "https://u.edu/" 8 3) []
        (some twoContactPage) "College of Science" "Biology").2.2 =
      (specDirectoryStubs "College of Science" "Biology" []
        (layout2Elements twoContactPage)).1 :=
  directory_stubs_amended (ScraperStatistics.init "https://u.edu/" 8 3) []
    twoContactPage "College of Science" "Biology" rfl (fun h => nomatch h)

theorem splitWhile_append_all (p : Char → Bool) (g t : List Char)
    (hg : ∀ c ∈ g, p c = true) :
    splitWhile p (g ++ t) = (g ++ (splitWhile p t).1, (splitWhile p t).2) := by
  induction g with
  | nil => simp [splitWhile]
  | cons c g' ih =>
    have hc : p c = true := hg c (List.mem_cons_self c g')
    have ih' := ih (fun x hx => hg x (List.mem_cons_of_mem c hx))
    simp [splitWhile, hc, ih']

theorem splitWhile_cons_false (p : Char → Bool) (c : Char) (t : List Char)
    (h : p c = false) : splitWhile p (c :: t) = ([], c :: t) := by
  simp [splitWhile, h]

theorem findFirstEmail_skip (n : Nat) :
    ∀ l : List Char, (∀ i, i < n → matchEmailAt (l.drop i) = none) →
      findFirstEmail l = findFirstEmail (l.drop n) := by
  induction n with
  | zero => intro l _; rfl
  | succ k ih =>
    intro l h
    cases l with
    | nil => simp
    | cons c cs =>
      have h0 : matchEmailAt (c :: cs) = none := by
        have := h 0 (Nat.succ_pos k)
        simpa using this
      have hstep : findFirstEmail (c :: cs) = findFirstEmail cs := by
        simp [findFirstEmail, h0]
      rw [hstep, List.drop_succ_cons]
      exact ih cs (fun i hi => by
        have := h (i + 1) (Nat.succ_lt_succ hi)
        simpa [List.drop_succ_cons] using this)

theorem findFirstEmail_cons_some (c : Char) (cs m : List Char)
    (h : matchEmailAt (c :: cs) = some m) : findFirstEmail (c :: cs) = some m := by
  simp [findFirstEmail, h]

theorem matchEmailAt_marker (post : List Char) :
    matchEmailAt ("jane.doe@example.edu for info".data ++ post) =
      some "jane.doe@example.edu".data := by
  have hd1 : "jane.doe@example.edu for info".data =
      "jane.doe".data ++ ('@' :: "example.edu for info".data) := by decide
  have e1 : "jane.doe@example.edu for info".data ++ post =
      "jane.doe".data ++ ('@' :: ("example.edu for info".data ++ post)) := by
    rw [hd1]; simp
  have hs1 : splitWhile isLocalChar ("jane.doe@example.edu for info".data ++ post) =
      ("jane.doe".data, '@' :: ("example.edu for info".data ++ post)) := by
    rw [e1, splitWhile_append_all isLocalChar _ _ (by decide),
      splitWhile_cons_false isLocalChar '@' _ (by decide)]
    simp
  have hd2 : "example.edu for info".data =
      "example.edu".data ++ (' ' :: "for info".data) := by decide
  have e2 : "example.edu for info".data ++ post =
      "example.edu".data ++ (' ' :: ("for info".data ++ post)) := by
    rw [hd2]; simp
  have hs2 : splitWhile isDomainChar ("example.edu for info".data ++ post) =
      ("example.edu".data, ' ' :: ("for info".data ++ post)) := by
    rw [e2, splitWhile_append_all isDomainChar _ _ (by decide),
      splitWhile_cons_false isDomainChar ' ' _ (by decide)]
    simp
  have hld : lastValidDot "example.edu".data = some 7 := by decide
  unfold matchEmailAt
  rw [hs1]
  simp only [hs2, hld]
  decide

theorem findFirstEmail_marker (post : List Char) :
    findFirstEmail ("jane.doe@example.edu for info".data ++ post) =
      some "jane.doe@example.edu".data := by
  have hd : "jane.doe@example.edu for info".data =
      'j' :: "ane.doe@example.edu for info".data := by decide
  have h := matchEmailAt_marker post
  rw [hd, List.cons_append] at h ⊢
  exact findFirstEmail_cons_some _ _ _ h

/-- C6: the profile stage scans the page's visible text with the e-mail
pattern and keeps the first match.  For every text of the form
`pre ++ "Contact: jane.doe@example.edu for info" ++ post` in which no
match of the pattern starts before the embedded address, the extracted
e-mail is exactly `"jane.doe@example.edu"` and no other substring. -/
theorem profile_email_first_match (pre post : String)
    (h : ∀ i, i < pre.length + 9 →
      matchEmailAt ((pre ++ "Contact: jane.doe@example.edu for info" ++ post).data.drop i) = none) :
    extractEmail (pre ++ "Contact: jane.doe@example.edu for info" ++ post) =
      some "jane.doe@example.edu" := by
  have hm : "Contact: jane.doe@example.edu for info".data =
      "Contact: ".data ++ "jane.doe@example.edu for info".data := by decide
  have hdata : (pre ++ "Contact: jane.doe@example.edu for info" ++ post).data =
      (pre.data ++ "Contact: ".data) ++ ("jane.doe@example.edu for info".data ++ post.data) := by
    rw [String.data_append, String.data_append, hm]
    simp
  have hlen : (pre.data ++ "Contact: ".data).length = pre.length + 9 := by
    rw [List.length_append]
    rfl
  have hskip := findFirstEmail_skip (pre.length + 9)
    ((pre ++ "Contact: jane.doe@example.edu for info" ++ post).data) h
  have hdrop : ((pre ++ "Contact: jane.doe@example.edu for info" ++ post).data).drop
      (pre.length + 9) = "jane.doe@example.edu for info".data ++ post.data := by
    rw [hdata, ← hlen, List.drop_left]
  unfold extractEmail
  rw [hskip, hdrop, findFirstEmail_marker]

/-- Witness for C6 with empty surrounding text. -/
theorem profile_email_first_match_witness :
    extractEmail ("" ++ "Contact: jane.doe@example.edu for info" ++ "") =
      some "jane.doe@example.edu" :=
  profile_email_first_match "" "" (by decide)

/-- C7: the end-to-end scenario — one college with one program whose
directory page yields two contacts, exactly one of whom shows an e-mail
on their profile page — run to completion writes exactly one row to the
output file, records one e-mail in total, marks the program in
`programs_with_faculty_url`, and counts one complete and one incomplete
record for the program. -/
theorem pipeline_end_to_end :
    scenarioResult.csvRows.length = 1 ∧
    scenarioResult.stats.total_emails_recorded = 1 ∧
    dictGet? scenarioResult.stats.programs_with_faculty_url "Biology" = some true ∧
    dictGet? scenarioResult.stats.program_complete_records "Biology" = some 1 ∧
    dictGet? scenarioResult.stats.program_incomplete_records "Biology" = some 1 := by
  decide

/-- C8: writing the statistics file appends this run's snapshot to the
snapshots already on file: every prior snapshot is preserved unchanged,
in order, followed by exactly one new snapshot.  (A file holding a lone
object is first wrapped into a list; a missing or unparsable file starts
a fresh list.) -/
theorem stats_file_append (l : List ScraperStatistics) (snap lone : ScraperStatistics) :
    stats_worker_write (.snapshots l) snap = l ++ [snap] ∧
    (stats_worker_write (.snapshots l) snap).take l.length = l ∧
    (stats_worker_write (.snapshots l) snap).length = l.length + 1 ∧
    (stats_worker_write (.snapshots l) snap).getLast? = some snap ∧
    stats_worker_write (.single lone) snap = [lone, snap] ∧
    stats_worker_write .missing snap = [snap] ∧
    stats_worker_write .corrupt snap = [snap] := by
  refine ⟨rfl, ?_, ?_, ?_, rfl, rfl, rfl⟩
  · exact List.take_left l [snap]
  · simp [stats_worker_write]
  · exact List.getLast?_concat l

/-- C9: the profile stage never changes a record's `name`, `office`,
`department` or `profile_url`; only `email` may be set, and when the
fetch fails or no e-mail pattern matches, the record is returned
entirely unchanged. -/
theorem profile_stage_frame (fetch : Option String) (c : ContactInfo) :
    (scrape_profile_page fetch c).name = c.name ∧
    (scrape_profile_page fetch c).office = c.office ∧
    (scrape_profile_page fetch c).department = c.department ∧
    (scrape_profile_page fetch c).profile_url = c.profile_url ∧
    (fetch = none → scrape_profile_page fetch c = c) ∧
    (∀ t, fetch = some t → extractEmail t = none → scrape_profile_page fetch c = c) := by
  cases fetch with
  | none => simp [scrape_profile_page]
  | some t =>
    cases he : extractEmail t with
    | none => simp [scrape_profile_page, he]
    | some e => simp [scrape_profile_page, he]

/-- Witness for C9 on a concrete contact whose profile text has no
e-mail: the record comes back unchanged. -/
theorem profile_stage_frame_witness :
    scrape_profile_page (some "No address shown")
        { email := none, name := some "Bob B", office := some "College of Science",
          department := some "Biology", profile_url := some "https://u.edu/bob" } =
      { email := none, name := some "Bob B", office := some "College of Science",
        department := some "Biology", profile_url := some "https://u.edu/bob" } :=
  (profile_stage_frame (some "No address shown")
      { email := none, name := some "Bob B", office := some "College of Science",
        department := some "Biology", profile_url := some "https://u.edu/bob" }).2.2.2.2.2
    "No address shown" rfl (by decide)

theorem update_stats_pages_step (s : ScraperStatistics) (t : String) (p : Option String)
    (hnp : t ≠ "page_visit") (hs : t = "faculty_url_success" → truthy p = true) :
    (update_stats s t p).total_pages_visited + s.programs_visited =
      s.total_pages_visited + (update_stats s t p).programs_visited +
        (if t = "faculty_url_success" then 1 else 0) := by
  unfold update_stats
  split_ifs <;> simp_all <;> omega

theorem apply_updates_pages (us : List (String × Option String)) :
    (∀ u ∈ us, u.1 ≠ "page_visit" ∧ (u.1 = "faculty_url_success" → truthy u.2 = true)) →
    ∀ s : ScraperStatistics,
      (apply_updates s us).total_pages_visited + s.programs_visited =
        s.total_pages_visited + (apply_updates s us).programs_visited +
          countFacultyUrlSuccess us := by
  induction us with
  | nil => intro _ s; simp [apply_updates, countFacultyUrlSuccess]
  | cons u rest ih =>
    intro hus s
    obtain ⟨t, p⟩ := u
    have hu := hus (t, p) (List.mem_cons_self _ _)
    have hstep := update_stats_pages_step s t p hu.1 hu.2
    have ihs := ih (fun x hx => hus x (List.mem_cons_of_mem _ hx)) (update_stats s t p)
    have hcount : countFacultyUrlSuccess ((t, p) :: rest) =
        (if t = "faculty_url_success" then 1 else 0) + countFacultyUrlSuccess rest := by
      by_cases ht : t = "faculty_url_success" <;>
        simp [countFacultyUrlSuccess, List.filter, ht, Nat.add_comm]
    simp only [apply_updates] at ihs ⊢
    rw [hcount]
    omega

/-- C10: `total_pages_visited` starts at 1 (the root page); the
`page_visit` branch of `update_stats` is dead code — no worker call site
ever passes that statistic type — so across any run the counter is
incremented only by the `program` and `faculty_url_success` updates, and
at every point equals 1 plus `programs_visited` plus the number of
`faculty_url_success` updates applied. -/
theorem total_pages_invariant (url : String) (n t : Nat) :
    (ScraperStatistics.init url n t).total_pages_visited = 1 ∧
    "page_visit" ∉ workerStatCallTypes ∧
    ∀ us : List (String × Option String),
      (∀ u ∈ us, u.1 ∈ workerStatCallTypes ∧
          (u.1 = "faculty_url_success" → truthy u.2 = true)) →
        (apply_updates (ScraperStatistics.init url n t) us).total_pages_visited =
          1 + (apply_updates (ScraperStatistics.init url n t) us).programs_visited +
            countFacultyUrlSuccess us := by
  refine ⟨rfl, by decide, ?_⟩
  intro us hus
  have hne : ∀ u ∈ us, u.1 ≠ "page_visit" ∧
      (u.1 = "faculty_url_success" → truthy u.2 = true) := by
    intro u hu
    refine ⟨?_, (hus u hu).2⟩
    intro heq
    have hmem := (hus u hu).1
    rw [heq] at hmem
    exact absurd hmem (by decide)
  have h := apply_updates_pages us hne (ScraperStatistics.init url n t)
  have h0 : (ScraperStatistics.init url n t).programs_visited = 0 := rfl
  have h1 : (ScraperStatistics.init url n t).total_pages_visited = 1 := rfl
  rw [h0, h1] at h
  omega

/-- Witness for C10 on a concrete update sequence drawn from the worker
call sites. -/
theorem total_pages_invariant_witness :
    (apply_updates (ScraperStatistics.init "https://u.edu/" 8 3)
        [("college", none), ("program", none),
         ("faculty_url_success", some "Biology")]).total_pages_visited =
      1 + (apply_updates (ScraperStatistics.init "https://u.edu/" 8 3)
        [("college", none), ("program", none),
         ("faculty_url_success", some "Biology")]).programs_visited +
        countFacultyUrlSuccess
          [("college", none), ("program", none), ("faculty_url_success", some "Biology")] :=
  (total_pages_invariant "https://u.edu/" 8 3).2.2
    [("college", none), ("program", none), ("faculty_url_success", some "Biology")]
    (by decide)
